import Mathlib

/-!
Verification of the `monitor` package (src/monitor.go): a latency-measurement
utility with a configurable `LatencyTracker` (functional-options pattern), a
lazily initialized process-wide default tracker, and a free-standing `Track`
function that computes a duration and submits an asynchronous log emission
through the external `threading.GoSafe` facility.

Shallow embedding conventions:
- Go `context.Context` values are modelled by the inductive `Ctx`
  (`background` is `context.Background()`; `withValue` builds a distinct
  derived context, enough to distinguish context instances).
- Log functions (`func(ctx, format, args...)`) are modelled by the identity
  type `LogFn`: the claims are about *which* function value is called and
  with what arguments, not about the bytes it writes, so a log function is
  represented by its identity and a call to it is recorded as a `LogEvent`.
  A nil Go function value is `none : Option LogFn`.
- Timestamps and durations are integers (nanoseconds, as in Go's
  `time.Time`/`time.Duration`); `time.Since(startTime)` is `now - startTime`
  with the call-time clock `now` passed in explicitly.
- The package-level variable `defaultTracker *LatencyTracker` is the explicit
  state `Option LatencyTracker` threaded through `TrackStep`.
-/

namespace Monitor

/-- Model of `context.Context`: the distinguished `context.Background()`
value plus derived contexts, enough to distinguish context instances. -/
inductive Ctx where
  | background : Ctx
  | withValue (key val : String) (parent : Ctx) : Ctx
deriving DecidableEq, Repr

/-- Identity of a Go log-function value
`func(ctx context.Context, format string, args ...interface{})`.
`defaultLogger` is the package's `defaultLogger`; `custom n` stands for any
other function value supplied by a caller. A nil function is
`none : Option LogFn`. -/
inductive LogFn where
  | defaultLogger : LogFn
  | custom (n : ℕ) : LogFn
deriving DecidableEq, Repr

/-- `ContextEnhancer` from monitor.go line 12: `func(ctx context.Context) context.Context`. -/
def ContextEnhancer : Type := Ctx → Ctx

/-- `defaultContextEnhancer` (monitor.go lines 61-65): ignores its argument
and returns `context.Background()`. -/
def defaultContextEnhancer : ContextEnhancer := fun _ => Ctx.background

/-- `LatencyTracker` (monitor.go lines 34-38): two function-valued fields,
both nilable in Go, hence `Option`. -/
structure LatencyTracker where
  logger : Option LogFn
  contextEnhancer : Option ContextEnhancer

/-- `TrackerOption` (monitor.go line 15): `func(*LatencyTracker)`, modelled
functionally as a tracker transformer. -/
def TrackerOption : Type := LatencyTracker → LatencyTracker

/-- `WithLogger` (monitor.go lines 17-22): sets the `logger` field to the
supplied (possibly nil) function. -/
def WithLogger (logger : Option LogFn) : TrackerOption :=
  fun lt => { lt with logger := logger }

/-- `WithContextEnhancer` (monitor.go lines 24-29): sets the
`contextEnhancer` field to the supplied (possibly nil) function. -/
def WithContextEnhancer (enhancer : Option ContextEnhancer) : TrackerOption :=
  fun lt => { lt with contextEnhancer := enhancer }

/-- `NewLatencyTracker` (monitor.go lines 40-53): starts from the defaults
(`defaultLogger`, `defaultContextEnhancer`) and applies the supplied options
in order. -/
def NewLatencyTracker (opts : List TrackerOption) : LatencyTracker :=
  opts.foldl (fun lt opt => opt lt)
    { logger := some LogFn.defaultLogger
      contextEnhancer := some defaultContextEnhancer }

/-- Initial value of the package-level `var defaultTracker *LatencyTracker`
(monitor.go line 32): a nil pointer. -/
def defaultTrackerInit : Option LatencyTracker := none

/-- The tracker `Track` uses after its lazy-initialization check
(monitor.go lines 70-72): the existing `defaultTracker` if non-nil,
otherwise `NewLatencyTracker()` with no options. -/
def trackerOf (st : Option LatencyTracker) : LatencyTracker :=
  match st with
  | none => NewLatencyTracker []
  | some t => t

/-- Logger resolution in `Track` (monitor.go lines 74-77): keep a non-nil
`logger` argument, otherwise take the tracker's configured `logger` field. -/
def resolveLogger (st : Option LatencyTracker) (logger : Option LogFn) : Option LogFn :=
  match logger with
  | none => (trackerOf st).logger
  | some l => some l

/-- The data of one `threading.GoSafe` submission made by `Track`
(monitor.go lines 85-97): what the three closures capture (the resolved
logger, the enhanced context, the operation name, the computed duration)
plus the tag passed to `threading.WithTag` (the operation name). -/
structure Submission where
  logger : Option LogFn
  enhancedCtx : Ctx
  name : String
  duration : ℤ
  tag : String
deriving DecidableEq, Repr

/-- One step of the free-standing `Track` function (monitor.go lines 68-97)
on the global state `defaultTracker`. Returns the new global state and the
submission handed to `threading.GoSafe`; the result is `none` when the
tracker's `contextEnhancer` field is a nil function, since
`defaultTracker.contextEnhancer(ctx)` on line 83 would then be a
nil-function call. `now` is the call-time clock, so
`duration := time.Since(startTime)` on line 80 is `now - startTime`. -/
def TrackStep (st : Option LatencyTracker) (now : ℤ) (ctx : Ctx)
    (startTime : ℤ) (name : String) (logger : Option LogFn) :
    Option LatencyTracker × Option Submission :=
  match (trackerOf st).contextEnhancer with
  | none => (some (trackerOf st), none)
  | some enh =>
      (some (trackerOf st),
       some { logger := resolveLogger st logger
              enhancedCtx := enh ctx
              name := name
              duration := now - startTime
              tag := name })

/-- An argument passed through the variadic `args ...interface{}`. -/
inductive LogArg where
  | str (s : String) : LogArg
  | int (i : ℤ) : LogArg
deriving DecidableEq, Repr

/-- A recorded call to a log function: which function value was invoked,
with which context, format string and arguments. -/
structure LogEvent where
  logger : Option LogFn
  ctx : Ctx
  fmt : String
  args : List LogArg
deriving DecidableEq, Repr

/-- Format string of the normal completion line (monitor.go line 88). -/
def completedFormat : String :=
  "[Latency] Name=%s, Duration=%v, Status=completed"

/-- Format string of the recovery line (monitor.go line 96). -/
def logErrorFormat : String :=
  "[Latency] Name=%s, Duration=%v, Status=logError, Error=%v"

/-- The log call made by the work-item closure (monitor.go lines 86-89):
`logger(enhancedCtx, "[Latency] Name=%s, Duration=%v, Status=completed", name, duration)`. -/
def completedEvent (sub : Submission) : LogEvent :=
  { logger := sub.logger
    ctx := sub.enhancedCtx
    fmt := completedFormat
    args := [LogArg.str sub.name, LogArg.int sub.duration] }

/-- The log call made by the `threading.WithRecovery` closure
(monitor.go lines 95-97), with `r` the recovered value. -/
def logErrorEvent (sub : Submission) (r : String) : LogEvent :=
  { logger := sub.logger
    ctx := sub.enhancedCtx
    fmt := logErrorFormat
    args := [LogArg.str sub.name, LogArg.int sub.duration, LogArg.str r] }

/-- The log call made by the `threading.WithLog` closure
(monitor.go lines 91-94): forwards the facility's internal diagnostics
through the resolved logger with the enhanced context. -/
def logSinkEvent (sub : Submission) (fmt : String) (args : List LogArg) : LogEvent :=
  { logger := sub.logger
    ctx := sub.enhancedCtx
    fmt := fmt
    args := args }

/-- Running the work item submitted by `Track` (monitor.go lines 86-89).
`raises = none` means the log call returns normally and the closure returns
`nil`; `raises = some r` means the log call raises a panic with value `r`,
so no completion line is produced and the panic value escapes the closure. -/
def runWorkItem (sub : Submission) (raises : Option String) :
    List LogEvent × Option String :=
  match raises with
  | none => ([completedEvent sub], none)
  | some r => ([], some r)

/-- Modelled from the spec: `threading.GoSafe` is the external
safe-execution facility (github.com/UTC-Six/pool/threading), not part of
this repository's source. Per §6 of the specification it runs the work item
on a separate worker and converts a panic inside it into a call to the
supplied recovery handler rather than crashing the process. The result is
the list of log calls made on the worker; a panic is absorbed (never
propagated), which is why the function is total. -/
def GoSafe (sub : Submission) (raises : Option String) : List LogEvent :=
  match runWorkItem sub raises with
  | (evs, none) => evs
  | (evs, some r) => evs ++ [logErrorEvent sub r]

/-- The global states of `defaultTracker` reachable through the package's
public interface: the initial nil pointer, then whatever states successive
`Track` calls produce (nothing else in the package writes `defaultTracker`,
and the variable is unexported). -/
inductive Reachable : Option LatencyTracker → Prop where
  | init : Reachable defaultTrackerInit
  | step (st : Option LatencyTracker) (now : ℤ) (ctx : Ctx) (startTime : ℤ)
      (name : String) (logger : Option LogFn) :
      Reachable st → Reachable (TrackStep st now ctx startTime name logger).1

/-- A construction option that never turns a non-nil `logger` or
`contextEnhancer` field into a nil one (for example `WithLogger` or
`WithContextEnhancer` applied to a non-nil function, or any option that
leaves a field alone). -/
def PreservesNonNil (o : TrackerOption) : Prop :=
  ∀ lt : LatencyTracker,
    (lt.logger.isSome = true → (o lt).logger.isSome = true) ∧
    (lt.contextEnhancer.isSome = true → (o lt).contextEnhancer.isSome = true)

/-- Program counter of one goroutine executing the lazy initialization of
`defaultTracker` (monitor.go lines 70-72), split at the sequence point
between the nil check (a read of `defaultTracker`) and the assignment
(a write of `defaultTracker`). -/
inductive ThreadPC where
  | start : ThreadPC
  | sawNil : ThreadPC
  | done : ThreadPC
deriving DecidableEq, Repr

/-- Shared memory plus the two goroutines' program counters for an
interleaved execution of the unguarded check-then-assign in `Track`.
`constructions` counts how many times `NewLatencyTracker()` has run. -/
structure RaceState where
  tracker : Option LatencyTracker
  constructions : ℕ
  pcA : ThreadPC
  pcB : ThreadPC

/-- One step of a single goroutine running
`if defaultTracker == nil { defaultTracker = NewLatencyTracker() }`
(monitor.go lines 70-72): from `start` it reads `defaultTracker` and
branches; from `sawNil` it constructs and assigns. There is no guard in the
source — no mutex, no atomic, no once-primitive — so the read and the write
are separate interleavable steps. -/
def lazyInitThreadStep (pc : ThreadPC) (tracker : Option LatencyTracker)
    (constructions : ℕ) : ThreadPC × Option LatencyTracker × ℕ :=
  match pc, tracker with
  | ThreadPC.start, none => (ThreadPC.sawNil, none, constructions)
  | ThreadPC.start, some t => (ThreadPC.done, some t, constructions)
  | ThreadPC.sawNil, _ => (ThreadPC.done, some (NewLatencyTracker []), constructions + 1)
  | ThreadPC.done, tr => (ThreadPC.done, tr, constructions)

/-- Run one step of goroutine B (when `runB` is true) or goroutine A. -/
def raceStep (s : RaceState) (runB : Bool) : RaceState :=
  if runB then
    match lazyInitThreadStep s.pcB s.tracker s.constructions with
    | (pc, tr, c) => { s with pcB := pc, tracker := tr, constructions := c }
  else
    match lazyInitThreadStep s.pcA s.tracker s.constructions with
    | (pc, tr, c) => { s with pcA := pc, tracker := tr, constructions := c }

/-- Interleaved execution of two goroutines that both enter `Track`'s lazy
initialization with `defaultTracker` still nil, under schedule `sched`
(each entry says which goroutine takes the next step). -/
def raceRun (sched : List Bool) : RaceState :=
  sched.foldl raceStep
    { tracker := defaultTrackerInit, constructions := 0,
      pcA := ThreadPC.start, pcB := ThreadPC.start }

/-- In every reachable global state, `defaultTracker` is either still nil or
the options-free `NewLatencyTracker []`. -/
lemma reachable_cases {st : Option LatencyTracker} (h : Reachable st) :
    st = none ∨ st = some (NewLatencyTracker []) := by
  induction h with
  | init => exact Or.inl rfl
  | step st now ctx startTime name logger _ ih =>
      rcases ih with h' | h' <;> subst h' <;>
        simp [TrackStep, trackerOf, NewLatencyTracker, defaultContextEnhancer]

/-- C1: for every call `Track(ctx, startTime, name, logger)`, the duration
recorded in the emitted log line equals `now - startTime` computed at call
time, with no validation and no clamping; for a `startTime` in the future
the duration is negative and appears unchanged in the line's arguments. -/
theorem Track_duration_is_now_sub_start (st : Option LatencyTracker) (now : ℤ)
    (ctx : Ctx) (startTime : ℤ) (name : String) (logger : Option LogFn)
    (sub : Submission)
    (h : (TrackStep st now ctx startTime name logger).2 = some sub) :
    sub.duration = now - startTime ∧
    (completedEvent sub).args = [LogArg.str name, LogArg.int (now - startTime)] ∧
    (now < startTime → sub.duration < 0) := by
  cases henh : (trackerOf st).contextEnhancer with
  | none => simp [TrackStep, henh] at h
  | some enh =>
      simp only [TrackStep, henh, Option.some.injEq] at h
      subst h
      refine ⟨rfl, rfl, fun hlt => ?_⟩
      simpa [completedEvent] using sub_neg_of_lt hlt

/-- Witness for C1 at `now = 3`, `startTime = 5` (a future start time). -/
theorem Track_duration_is_now_sub_start_witness :
    (Submission.mk (some LogFn.defaultLogger) Ctx.background "op" ((3 : ℤ) - 5) "op").duration =
      3 - 5 ∧
    (completedEvent
        (Submission.mk (some LogFn.defaultLogger) Ctx.background "op" ((3 : ℤ) - 5) "op")).args =
      [LogArg.str "op", LogArg.int (3 - 5)] ∧
    ((3 : ℤ) < 5 →
      (Submission.mk (some LogFn.defaultLogger) Ctx.background "op" ((3 : ℤ) - 5) "op").duration < 0) :=
  Track_duration_is_now_sub_start none 3 Ctx.background 5 "op" none
    (Submission.mk (some LogFn.defaultLogger) Ctx.background "op" ((3 : ℤ) - 5) "op") rfl

/-- C2: the log function receiving the emitted line is the explicitly
passed `logger` argument when non-nil, otherwise the tracker's configured
log function; a non-nil caller-supplied logger always takes precedence. -/
theorem Track_logger_precedence (st : Option LatencyTracker) (now : ℤ)
    (ctx : Ctx) (startTime : ℤ) (name : String) (logger : Option LogFn)
    (sub : Submission)
    (h : (TrackStep st now ctx startTime name logger).2 = some sub) :
    (logger ≠ none → sub.logger = logger) ∧
    (logger = none → sub.logger = (trackerOf st).logger) := by
  cases henh : (trackerOf st).contextEnhancer with
  | none => simp [TrackStep, henh] at h
  | some enh =>
      simp only [TrackStep, henh, Option.some.injEq] at h
      subst h
      cases logger <;> simp [resolveLogger]

/-- Witness for C2 with an explicitly passed logger `custom 7`. -/
theorem Track_logger_precedence_witness :
    ((some (LogFn.custom 7) : Option LogFn) ≠ none →
      (Submission.mk (some (LogFn.custom 7)) Ctx.background "op" ((0 : ℤ) - 0) "op").logger =
        some (LogFn.custom 7)) ∧
    ((some (LogFn.custom 7) : Option LogFn) = none →
      (Submission.mk (some (LogFn.custom 7)) Ctx.background "op" ((0 : ℤ) - 0) "op").logger =
        (trackerOf none).logger) :=
  Track_logger_precedence none 0 Ctx.background 0 "op" (some (LogFn.custom 7))
    (Submission.mk (some (LogFn.custom 7)) Ctx.background "op" ((0 : ℤ) - 0) "op") rfl

/-- C3 counterexample: calling `Track` with `context.Background()` as the
caller's context, the context passed to the logger IS the caller's original
context — the default enhancer returns `context.Background()`, which is the
very value the caller supplied — refuting the claim's "never the caller's
original context itself". -/
theorem Track_background_context_passed_is_original :
    (TrackStep none 0 Ctx.background 0 "op" none).2.map Submission.enhancedCtx =
      some Ctx.background := rfl

/-- C3 (amended): the context passed to the resolved logger is the result
of applying the tracker's context-enhancer to the caller's original
context; whenever the enhancer's output differs from the original context,
the passed context is not the original one. -/
theorem Track_context_is_enhancer_output (st : Option LatencyTracker) (now : ℤ)
    (ctx : Ctx) (startTime : ℤ) (name : String) (logger : Option LogFn)
    (enh : ContextEnhancer) (sub : Submission)
    (henh : (trackerOf st).contextEnhancer = some enh)
    (h : (TrackStep st now ctx startTime name logger).2 = some sub) :
    sub.enhancedCtx = enh ctx ∧ (enh ctx ≠ ctx → sub.enhancedCtx ≠ ctx) := by
  simp only [TrackStep, henh, Option.some.injEq] at h
  subst h
  exact ⟨rfl, fun hne => hne⟩

/-- Witness for C3 (amended) with a non-background caller context, on which
the default enhancer's output differs from the original context. -/
theorem Track_context_is_enhancer_output_witness :
    (Submission.mk (some LogFn.defaultLogger) Ctx.background "op" ((0 : ℤ) - 0) "op").enhancedCtx =
      defaultContextEnhancer (Ctx.withValue "traceID" "t1" Ctx.background) ∧
    (defaultContextEnhancer (Ctx.withValue "traceID" "t1" Ctx.background) ≠
        Ctx.withValue "traceID" "t1" Ctx.background →
      (Submission.mk (some LogFn.defaultLogger) Ctx.background "op" ((0 : ℤ) - 0) "op").enhancedCtx ≠
        Ctx.withValue "traceID" "t1" Ctx.background) :=
  Track_context_is_enhancer_output none 0 (Ctx.withValue "traceID" "t1" Ctx.background)
    0 "op" none defaultContextEnhancer
    (Submission.mk (some LogFn.defaultLogger) Ctx.background "op" ((0 : ℤ) - 0) "op") rfl rfl

/-- C4: the default context enhancer discards the caller-supplied context
entirely: for every input it returns the empty background context, so its
output is independent of the input. -/
theorem defaultContextEnhancer_discards_input (c c' : Ctx) :
    defaultContextEnhancer c = Ctx.background ∧
    defaultContextEnhancer c = defaultContextEnhancer c' :=
  ⟨rfl, rfl⟩

/-- C5: `NewLatencyTracker` applies options to the freshly defaulted
tracker in the order supplied — appending an option means applying it last,
to the result of all earlier options — so when two options set the same
field, the later option's value is the one held by the returned tracker. -/
theorem NewLatencyTracker_options_in_order_last_wins
    (opts : List TrackerOption) (o : TrackerOption)
    (f g : Option LogFn) (e e' : Option ContextEnhancer) :
    NewLatencyTracker (opts ++ [o]) = o (NewLatencyTracker opts) ∧
    (NewLatencyTracker (opts ++ [WithLogger f, WithLogger g])).logger = g ∧
    (NewLatencyTracker
        (opts ++ [WithContextEnhancer e, WithContextEnhancer e'])).contextEnhancer = e' := by
  refine ⟨?_, ?_, ?_⟩ <;>
    simp [NewLatencyTracker, List.foldl_append, WithLogger, WithContextEnhancer]

/-- C6 counterexample: `WithLogger` accepts a nil function, and
`NewLatencyTracker(WithLogger(nil))` returns a tracker whose log-function
field is nil — refuting "both fields are non-nil for every sequence of
options". -/
theorem NewLatencyTracker_nil_logger_from_option :
    (NewLatencyTracker [WithLogger none]).logger = none := rfl

/-- C6 (amended): for every sequence of options each of which preserves
non-nil fields (in particular the empty sequence, where the construction
defaults remain), the returned tracker's log-function and context-enhancer
fields are both non-nil. -/
theorem NewLatencyTracker_fields_nonnil (opts : List TrackerOption)
    (h : ∀ o ∈ opts, PreservesNonNil o) :
    (NewLatencyTracker opts).logger.isSome = true ∧
    (NewLatencyTracker opts).contextEnhancer.isSome = true := by
  have aux : ∀ (l : List TrackerOption) (lt : LatencyTracker),
      (∀ o ∈ l, PreservesNonNil o) →
      lt.logger.isSome = true → lt.contextEnhancer.isSome = true →
      (l.foldl (fun acc opt => opt acc) lt).logger.isSome = true ∧
      (l.foldl (fun acc opt => opt acc) lt).contextEnhancer.isSome = true := by
    intro l
    induction l with
    | nil => intro lt _ h1 h2; exact ⟨h1, h2⟩
    | cons o rest ih =>
        intro lt hall h1 h2
        have ho := hall o (by simp)
        exact ih (o lt) (fun o' ho' => hall o' (by simp [ho']))
          ((ho lt).1 h1) ((ho lt).2 h2)
  simpa [NewLatencyTracker] using
    aux opts { logger := some LogFn.defaultLogger,
               contextEnhancer := some defaultContextEnhancer } h rfl rfl

/-- Witness for C6 (amended) with the single option `WithLogger (custom 1)`. -/
theorem NewLatencyTracker_fields_nonnil_witness :
    (NewLatencyTracker [WithLogger (some (LogFn.custom 1))]).logger.isSome = true ∧
    (NewLatencyTracker [WithLogger (some (LogFn.custom 1))]).contextEnhancer.isSome = true :=
  NewLatencyTracker_fields_nonnil [WithLogger (some (LogFn.custom 1))] (by
    intro o ho
    simp only [List.mem_singleton] at ho
    subst ho
    intro lt
    exact ⟨fun _ => rfl, fun h2 => h2⟩)

/-- C7: when the asynchronous work item panics with value `r`, the
safe-execution facility produces exactly one "logError" line instead of the
"completed" line; the line goes through the resolved logger with the
enhanced context and carries the same operation name and duration the
completed line would have carried, plus the recovered value; the panic is
absorbed by the facility (`GoSafe` always returns normally), never
propagated to the caller. -/
theorem GoSafe_panic_recovery (sub : Submission) (r : String) :
    GoSafe sub (some r) = [logErrorEvent sub r] ∧
    (logErrorEvent sub r).logger = sub.logger ∧
    (logErrorEvent sub r).ctx = sub.enhancedCtx ∧
    (logErrorEvent sub r).args =
      [LogArg.str sub.name, LogArg.int sub.duration, LogArg.str r] ∧
    (logErrorEvent sub r).args.take 2 = (completedEvent sub).args ∧
    completedEvent sub ∉ GoSafe sub (some r) := by
  refine ⟨rfl, rfl, rfl, rfl, rfl, ?_⟩
  have hfmt : completedFormat ≠ logErrorFormat := by decide
  simp only [GoSafe, runWorkItem, List.nil_append, List.mem_singleton]
  intro hc
  exact hfmt (congrArg LogEvent.fmt hc)

/-- C8 counterexample: with a (hypothetical) global tracker whose
configured log function is nil, a `Track` call with a nil `logger` argument
resolves to a nil log function — the code copies the configured field as-is
and contains no call-time fallback to the default log function. -/
theorem Track_nil_config_no_fallback :
    (trackerOf (some (NewLatencyTracker [WithLogger none]))).logger = none ∧
    resolveLogger (some (NewLatencyTracker [WithLogger none])) none = none ∧
    resolveLogger (some (NewLatencyTracker [WithLogger none])) none ≠
      some LogFn.defaultLogger := by
  refine ⟨rfl, rfl, ?_⟩
  intro hc
  exact Option.noConfusion hc

/-- C8 (amended): in every global state reachable through the package's
interface, the resolved log function is never nil — when the caller passes
a nil logger it resolves to the construction-time default `defaultLogger` —
so the nil-function-call branch is unreachable at the `Track` interface;
the safety comes from construction-time defaults, not from a call-time
fallback. -/
theorem Track_resolved_logger_never_nil (st : Option LatencyTracker)
    (h : Reachable st) (logger : Option LogFn) :
    resolveLogger st logger ≠ none ∧
    (logger = none → resolveLogger st logger = some LogFn.defaultLogger) := by
  rcases reachable_cases h with h' | h' <;> subst h' <;>
    cases logger <;> simp [resolveLogger, trackerOf, NewLatencyTracker]

/-- Witness for C8 (amended) in the initial state with a nil logger argument. -/
theorem Track_resolved_logger_never_nil_witness :
    resolveLogger defaultTrackerInit none ≠ none ∧
    ((none : Option LogFn) = none →
      resolveLogger defaultTrackerInit none = some LogFn.defaultLogger) :=
  Track_resolved_logger_never_nil defaultTrackerInit Reachable.init none

/-- C9: the lazy construction of the global default tracker is NOT guarded
by any one-time-initialization primitive. Under the schedule A-check,
B-check, A-assign, B-assign — both goroutines read the nil pointer before
either writes it — the construction runs twice, contradicting the claimed
at-most-once guarantee (the source's lines 70-72 are a plain unsynchronized
check-then-assign). -/
theorem lazyInit_double_construction :
    (raceRun [false, true, false, true]).constructions = 2 ∧
    (raceRun [false, true, false, true]).pcA = ThreadPC.done ∧
    (raceRun [false, true, false, true]).pcB = ThreadPC.done :=
  ⟨rfl, rfl, rfl⟩

/-- C10: in every reachable global state, the free-standing `Track` uses
exactly the options-free `NewLatencyTracker []` as its tracker, whose
fields are the default logger and the default context enhancer; hence a
`Track` call with a nil logger argument always produces the fully
determined default submission (default logger, background context), and a
global state holding a tracker customized through construction options is
not reachable — trackers returned by `NewLatencyTracker` with options are
never consulted by `Track`. -/
theorem Track_uses_global_defaults (st : Option LatencyTracker)
    (h : Reachable st) (now : ℤ) (ctx : Ctx) (startTime : ℤ) (name : String) :
    trackerOf st = NewLatencyTracker [] ∧
    (NewLatencyTracker []).logger = some LogFn.defaultLogger ∧
    (NewLatencyTracker []).contextEnhancer = some defaultContextEnhancer ∧
    (TrackStep st now ctx startTime name none).2 =
      some (Submission.mk (some LogFn.defaultLogger) Ctx.background name
        (now - startTime) name) ∧
    ¬ Reachable (some (NewLatencyTracker [WithLogger (some (LogFn.custom 5))])) := by
  have hnr : ¬ Reachable (some (NewLatencyTracker [WithLogger (some (LogFn.custom 5))])) := by
    intro hr
    rcases reachable_cases hr with h' | h'
    · exact Option.noConfusion h'
    · have hlog := congrArg (fun t => (trackerOf t).logger) h'
      simp [trackerOf, NewLatencyTracker, WithLogger] at hlog
  rcases reachable_cases h with h' | h' <;> subst h' <;>
    exact ⟨rfl, rfl, rfl, rfl, hnr⟩

/-- Witness for C10 in the initial state with a derived caller context. -/
theorem Track_uses_global_defaults_witness :
    trackerOf defaultTrackerInit = NewLatencyTracker [] ∧
    (NewLatencyTracker []).logger = some LogFn.defaultLogger ∧
    (NewLatencyTracker []).contextEnhancer = some defaultContextEnhancer ∧
    (TrackStep defaultTrackerInit 7 (Ctx.withValue "k" "v" Ctx.background) 2 "op" none).2 =
      some (Submission.mk (some LogFn.defaultLogger) Ctx.background "op"
        ((7 : ℤ) - 2) "op") ∧
    ¬ Reachable (some (NewLatencyTracker [WithLogger (some (LogFn.custom 5))])) :=
  Track_uses_global_defaults defaultTrackerInit Reachable.init 7
    (Ctx.withValue "k" "v" Ctx.background) 2 "op"

end Monitor
